import Mathlib

/-
Verification of the conversation-history subsystem of CopilotKit
(packages/react-core: services/conversation-service.ts and
hooks/use-copilot-conversation.ts).

The embedding models the TypeScript code directly:
- JavaScript string operations (toLowerCase, trim, includes) are embedded as
  structurally recursive Lean functions over the character list of a string.
- A fetch call is modelled by a FetchOutcome environment value: either the
  transport fails (the fetch promise rejects) or a response with a status,
  a statusText and a parsed JSON body arrives.
- Each service method returns a ServiceResult: the value or error the promise
  settles with, the list of HTTP requests issued, and the list of errors
  passed to console.error.
- React hook callbacks are modelled as pure functions that also return the
  list of context-method calls they perform.
-/

/-- Embedding of the JavaScript String.prototype.toLowerCase for the ASCII
range used by the role strings and search queries. -/
def toLowerCase (s : String) : String := String.mk (s.data.map Char.toLower)

/-- Embedding of JavaScript String.prototype.trim: strip leading and trailing
whitespace characters. -/
def jsTrim (s : String) : String :=
  String.mk (((s.data.dropWhile Char.isWhitespace).reverse.dropWhile Char.isWhitespace).reverse)

/-- Substring occurrence on character lists: the needle occurs somewhere in
the haystack. An empty needle always occurs, as in JavaScript includes. -/
def charsInclude : List Char → List Char → Bool
  | _, [] => true
  | [], _ :: _ => false
  | c :: cs, n :: ns => (List.isPrefixOf (n :: ns) (c :: cs)) || charsInclude cs (n :: ns)

/-- Embedding of JavaScript String.prototype.includes. -/
def includes (s sub : String) : Bool := charsInclude s.data sub.data

/-- fetch Response.ok: the HTTP status is in the inclusive range 200..299. -/
def responseOk (status : Nat) : Bool := 200 ≤ status && status ≤ 299

/-- Parsed JSON values, the result of response.json(). A JavaScript
undefined arising from a missing object property is modelled as null. -/
inductive Json where
  | null
  | bool (b : Bool)
  | num (n : Int)
  | str (s : String)
  | arr (elems : List Json)
  | obj (fields : List (String × Json))

/-- Array.isArray on a parsed JSON value. -/
def Json.isArr : Json → Bool
  | .arr _ => true
  | _ => false

/-- JavaScript truthiness of a parsed JSON value (undefined is modelled as
null and is falsy; the empty string and zero are falsy). -/
def jsTruthy : Json → Bool
  | .null => false
  | .bool b => b
  | .num n => !(n == 0)
  | .str s => !(s == "")
  | .arr _ => true
  | .obj _ => true

/-- Property access result dot name on a parsed JSON value: the field value
for an object that has the field, otherwise undefined (modelled as null). -/
def jsField (j : Json) (name : String) : Json :=
  match j with
  | .obj fields => ((fields.find? (fun p => p.fst == name)).map Prod.snd).getD Json.null
  | _ => Json.null

/-- JavaScript a or-else b on JSON values: b when a is falsy. -/
def jsOr (a b : Json) : Json := if jsTruthy a then a else b

/-- JavaScript title or-else fallback on an optional string argument: the
fallback is used when the argument is absent or the empty string. -/
def jsOrStr (a : Option String) (b : String) : String :=
  match a with
  | some s => if s == "" then b else s
  | none => b

/-- Host message roles (enum MessageRole of the runtime client). -/
inductive MessageRole where
  | user
  | assistant
  | system
deriving DecidableEq, Repr

/-- Host framework messages as a tagged union over the runtime-checked kinds
the service dispatches on: isTextMessage, isActionExecutionMessage,
isResultMessage, isAgentStateMessage, isImageMessage. Action-execution and
result messages carry no role field of their own, matching the host types.
The createdAt field holds the host Date value as its string source. -/
inductive Message where
  | text (id : String) (role : MessageRole) (content : String) (createdAt : String)
  | actionExecution (id : String) (name : String) (createdAt : String)
  | result (id : String) (resultValue : String) (createdAt : String)
  | agentState (id : String) (role : MessageRole) (agentName : String) (createdAt : String)
  | image (id : String) (role : MessageRole) (createdAt : String)
deriving DecidableEq, Repr

/-- The id property shared by every host message kind. -/
def Message.id : Message → String
  | .text i _ _ _ => i
  | .actionExecution i _ _ => i
  | .result i _ _ => i
  | .agentState i _ _ _ => i
  | .image i _ _ => i

/-- getMessageRole of conversation-service.ts: text, agent-state and image
messages expose their own role; action and result messages default to the
assistant role. -/
def getMessageRole : Message → MessageRole
  | .text _ role _ _ => role
  | .agentState _ role _ _ => role
  | .image _ role _ => role
  | .actionExecution _ _ _ => MessageRole.assistant
  | .result _ _ _ => MessageRole.assistant

/-- mapApiRoleToCopilotRole of conversation-service.ts: lower-case the wire
role string, map the three known roles, default everything else to user. -/
def mapApiRoleToCopilotRole (apiRole : String) : MessageRole :=
  if toLowerCase apiRole = "user" then MessageRole.user
  else if toLowerCase apiRole = "assistant" then MessageRole.assistant
  else if toLowerCase apiRole = "system" then MessageRole.system
  else MessageRole.user

/-- mapCopilotRoleToApiRole of conversation-service.ts. -/
def mapCopilotRoleToApiRole : MessageRole → String
  | MessageRole.user => "user"
  | MessageRole.assistant => "assistant"
  | MessageRole.system => "system"

/-- extractMessageContent of conversation-service.ts. The five modelled
kinds cover every runtime branch; the trailing unknown-kind fallback of the
source is unreachable for them. -/
def extractMessageContent : Message → String
  | .text _ _ content _ => content
  | .actionExecution _ name _ => "Action: " ++ name
  | .result _ resultValue _ => "Result: " ++ resultValue
  | .agentState _ _ agentName _ => "Agent State: " ++ agentName
  | .image _ _ _ => "[Image Message]"

/-- getMessageType of conversation-service.ts. -/
def getMessageType : Message → String
  | .text _ _ _ _ => "text"
  | .actionExecution _ _ _ => "action"
  | .result _ _ _ => "result"
  | .agentState _ _ _ _ => "agent_state"
  | .image _ _ _ => "image"

/-- The messageMetadata object built by convertCopilotMessageToApiMessage:
kind tag, the original message id, and the original message itself. -/
structure MessageMetadata where
  type : String
  messageId : String
  originalMessage : Message
deriving DecidableEq, Repr

/-- The wire message produced by convertCopilotMessageToApiMessage: the
ConversationMessage shape with id, createdAt and updatedAt omitted
(those are assigned by the backend on storage). -/
structure ApiMessageOut where
  conversationId : String
  userId : String
  role : String
  content : String
  messageMetadata : MessageMetadata
deriving DecidableEq, Repr

/-- A stored wire message (interface ConversationMessage): the persisted
shape including the backend-assigned id and timestamps. -/
structure ConversationMessage where
  id : String
  conversationId : String
  userId : String
  role : String
  content : String
  createdAt : String
  updatedAt : String
  messageMetadata : Option MessageMetadata
deriving DecidableEq, Repr

/-- convertCopilotMessageToApiMessage of conversation-service.ts. The
userId comes from the service configuration. -/
def convertCopilotMessageToApiMessage (userId : String) (message : Message)
    (conversationId : String) : ApiMessageOut :=
  { conversationId := conversationId
    userId := userId
    role := mapCopilotRoleToApiRole (getMessageRole message)
    content := extractMessageContent message
    messageMetadata :=
      { type := getMessageType message
        messageId := message.id
        originalMessage := message } }

/-- Modelled from the spec: the backend stores a saved wire message and
assigns the server-side id and the createdAt and updatedAt timestamps
(spec sections 3 and 6: ids are assigned by the backend, the save endpoint
receives the message minus id and timestamps). The storage step itself is
not part of the repository sources. -/
def storeWire (outMsg : ApiMessageOut) (assignedId createdAt updatedAt : String) :
    ConversationMessage :=
  { id := assignedId
    conversationId := outMsg.conversationId
    userId := outMsg.userId
    role := outMsg.role
    content := outMsg.content
    createdAt := createdAt
    updatedAt := updatedAt
    messageMetadata := some outMsg.messageMetadata }

/-- convertApiMessagesToCopilotMessages of conversation-service.ts: map the
wire role back, then build a TextMessage whether or not the metadata marks
the message as text (the non-text branch of the source also builds a
TextMessage, noted by its TODO comment). -/
def convertApiMessagesToCopilotMessages (apiMessages : List ConversationMessage) :
    List Message :=
  apiMessages.map fun apiMessage =>
    let role := mapApiRoleToCopilotRole apiMessage.role
    match apiMessage.messageMetadata with
    | some md =>
        if md.type = "text" then
          Message.text apiMessage.id role apiMessage.content apiMessage.createdAt
        else
          Message.text apiMessage.id role apiMessage.content apiMessage.createdAt
    | none => Message.text apiMessage.id role apiMessage.content apiMessage.createdAt

/-- The endpoints field of interface ConversationConfig: every path is
optional. -/
structure Endpoints where
  conversations : Option String
  messages : Option String
  create : Option String
  delete : Option String
deriving DecidableEq, Repr

/-- interface ConversationConfig of types/conversation.ts: configuration the
host passes in; headers, autoSave and endpoints are optional. -/
structure ConversationConfig where
  apiBaseUrl : String
  userId : String
  headers : Option (List (String × String))
  autoSave : Option Bool
  endpoints : Option Endpoints
deriving DecidableEq, Repr

/-- The default endpoints object supplied by the ConversationService
constructor. -/
def defaultEndpoints : Endpoints :=
  { conversations := some "/conversations"
    messages := some "/messages"
    create := some "/conversations"
    delete := some "/conversations" }

/-- The configuration held by a ConversationService instance after its
constructor merged the defaults with the caller configuration
(spread semantics: a caller-supplied endpoints object replaces the whole
default endpoints object, and a caller-supplied autoSave replaces true). -/
structure ServiceConfig where
  apiBaseUrl : String
  userId : String
  headers : Option (List (String × String))
  autoSave : Bool
  endpoints : Endpoints
deriving DecidableEq, Repr

/-- The ConversationService constructor. -/
def mkService (config : ConversationConfig) : ServiceConfig :=
  { apiBaseUrl := config.apiBaseUrl
    userId := config.userId
    headers := config.headers
    autoSave := config.autoSave.getD true
    endpoints := config.endpoints.getD defaultEndpoints }

/-- Interpolating a possibly-undefined endpoint path into a template
literal: JavaScript renders undefined as the text undefined. -/
def jsTemplate : Option String → String
  | some s => s
  | none => "undefined"

/-- The header map sent with every request: the Content-Type header followed
by the configured headers, which are spread after it and therefore win on a
duplicate name. The model keeps the association list in spread order. -/
def requestHeaders (cfg : ServiceConfig) : List (String × String) :=
  ("Content-Type", "application/json") :: cfg.headers.getD []

/-- The JSON-stringified request body of an HTTP call. -/
inductive RequestBody where
  | empty
  | createPayload (userId : String) (title : String)
  | savePayload (message : ApiMessageOut)
  | updatePayload (title : Option String) (lastMessage : Option String)
      (messageCount : Option Nat)
deriving DecidableEq, Repr

/-- One HTTP request issued through fetch. -/
structure HttpRequest where
  method : String
  url : String
  headers : List (String × String)
  body : RequestBody
deriving DecidableEq, Repr

/-- The environment behaviour of a single fetch call: either the transport
fails and the fetch promise rejects, or a response arrives with an HTTP
status, a status text, and a parsed body of the given type. -/
inductive FetchOutcome (β : Type) where
  | networkError (message : String)
  | success (status : Nat) (statusText : String) (body : β)

/-- JavaScript errors observed by the service: a thrown Error with its
message, or the TypeError a rejected fetch produces. -/
inductive JsError where
  | jsError (message : String)
  | typeError (message : String)
deriving DecidableEq, Repr

/-- What one service method call amounts to: how the returned promise
settles, the requests issued, and the errors passed to console.error. -/
structure ServiceResult (α : Type) where
  result : Except JsError α
  requests : List HttpRequest
  logs : List JsError

/-- Partial conversation update (Partial of interface Conversation
restricted to the mutable fields the spec names). -/
structure ConversationUpdate where
  title : Option String
  lastMessage : Option String
  messageCount : Option Nat
deriving DecidableEq, Repr

namespace ConversationService

/-- ConversationService.getConversations: GET the conversations endpoint,
throw on non-2xx, return the parsed body when it is an array and the empty
list otherwise; a caught error is logged and rethrown. The element type of
the returned list is raw JSON because the source casts without checking. -/
def getConversations (cfg : ServiceConfig) (outcome : FetchOutcome Json) :
    ServiceResult (List Json) :=
  let req : HttpRequest :=
    { method := "GET"
      url := cfg.apiBaseUrl ++ jsTemplate cfg.endpoints.conversations
               ++ "?userId=" ++ cfg.userId
      headers := requestHeaders cfg
      body := RequestBody.empty }
  match outcome with
  | .networkError msg =>
      let e := JsError.typeError msg
      { result := .error e, requests := [req], logs := [e] }
  | .success status statusText body =>
      if responseOk status then
        { result := .ok (match body with | .arr xs => xs | _ => [])
          requests := [req], logs := [] }
      else
        let e := JsError.jsError ("Failed to fetch conversations: " ++ statusText)
        { result := .error e, requests := [req], logs := [e] }

/-- ConversationService.getConversationMessages: GET the messages of one
conversation, throw on non-2xx, otherwise decode the wire messages. The
body is the already-cast wire message list, matching the unchecked cast of
the source. -/
def getConversationMessages (cfg : ServiceConfig) (conversationId : String)
    (outcome : FetchOutcome (List ConversationMessage)) : ServiceResult (List Message) :=
  let req : HttpRequest :=
    { method := "GET"
      url := cfg.apiBaseUrl ++ jsTemplate cfg.endpoints.conversations
               ++ "/" ++ conversationId ++ "/messages"
      headers := requestHeaders cfg
      body := RequestBody.empty }
  match outcome with
  | .networkError msg =>
      let e := JsError.typeError msg
      { result := .error e, requests := [req], logs := [e] }
  | .success status statusText body =>
      if responseOk status then
        { result := .ok (convertApiMessagesToCopilotMessages body)
          requests := [req], logs := [] }
      else
        let e := JsError.jsError ("Failed to fetch conversation messages: " ++ statusText)
        { result := .error e, requests := [req], logs := [e] }

/-- ConversationService.createConversation: POST userId and title (with a
timestamped default title when the argument is absent or empty), throw on
non-2xx, otherwise return the first truthy one of the id, conversationId
and underscore-id fields of the parsed body. The now argument is the
toLocaleString rendering of the current date. -/
def createConversation (cfg : ServiceConfig) (title : Option String) (now : String)
    (outcome : FetchOutcome Json) : ServiceResult Json :=
  let req : HttpRequest :=
    { method := "POST"
      url := cfg.apiBaseUrl ++ jsTemplate cfg.endpoints.create
      headers := requestHeaders cfg
      body := RequestBody.createPayload cfg.userId (jsOrStr title ("Conversation " ++ now)) }
  match outcome with
  | .networkError msg =>
      let e := JsError.typeError msg
      { result := .error e, requests := [req], logs := [e] }
  | .success status statusText body =>
      if responseOk status then
        { result := .ok (jsOr (jsField body "id")
            (jsOr (jsField body "conversationId") (jsField body "_id")))
          requests := [req], logs := [] }
      else
        let e := JsError.jsError ("Failed to create conversation: " ++ statusText)
        { result := .error e, requests := [req], logs := [e] }

/-- ConversationService.deleteConversation: DELETE the conversation, throw
on non-2xx, body ignored on success. -/
def deleteConversation (cfg : ServiceConfig) (conversationId : String)
    (outcome : FetchOutcome Json) : ServiceResult Unit :=
  let req : HttpRequest :=
    { method := "DELETE"
      url := cfg.apiBaseUrl ++ jsTemplate cfg.endpoints.delete ++ "/" ++ conversationId
      headers := requestHeaders cfg
      body := RequestBody.empty }
  match outcome with
  | .networkError msg =>
      let e := JsError.typeError msg
      { result := .error e, requests := [req], logs := [e] }
  | .success status statusText _ =>
      if responseOk status then
        { result := .ok (), requests := [req], logs := [] }
      else
        let e := JsError.jsError ("Failed to delete conversation: " ++ statusText)
        { result := .error e, requests := [req], logs := [e] }

/-- The save request saveMessage issues when autoSave is on. -/
def saveMessageRequest (cfg : ServiceConfig) (message : Message)
    (conversationId : String) : HttpRequest :=
  { method := "POST"
    url := cfg.apiBaseUrl ++ jsTemplate cfg.endpoints.conversations
             ++ "/" ++ conversationId ++ "/messages"
    headers := requestHeaders cfg
    body := RequestBody.savePayload
      (convertCopilotMessageToApiMessage cfg.userId message conversationId) }

/-- ConversationService.saveMessage: return immediately when autoSave is
off; otherwise POST the encoded message and swallow every failure after
logging it, so the returned promise always resolves. -/
def saveMessage (cfg : ServiceConfig) (message : Message) (conversationId : String)
    (outcome : FetchOutcome Json) : ServiceResult Unit :=
  if !cfg.autoSave then
    { result := .ok (), requests := [], logs := [] }
  else
    let req := saveMessageRequest cfg message conversationId
    match outcome with
    | .networkError msg =>
        { result := .ok (), requests := [req], logs := [JsError.typeError msg] }
    | .success status statusText _ =>
        if responseOk status then
          { result := .ok (), requests := [req], logs := [] }
        else
          { result := .ok (), requests := [req]
            logs := [JsError.jsError ("Failed to save message: " ++ statusText)] }

/-- ConversationService.updateConversation: PATCH the partial update, throw
on non-2xx, body ignored on success. -/
def updateConversation (cfg : ServiceConfig) (conversationId : String)
    (updates : ConversationUpdate) (outcome : FetchOutcome Json) : ServiceResult Unit :=
  let req : HttpRequest :=
    { method := "PATCH"
      url := cfg.apiBaseUrl ++ jsTemplate cfg.endpoints.conversations
               ++ "/" ++ conversationId
      headers := requestHeaders cfg
      body := RequestBody.updatePayload updates.title updates.lastMessage
                updates.messageCount }
  match outcome with
  | .networkError msg =>
      let e := JsError.typeError msg
      { result := .error e, requests := [req], logs := [e] }
  | .success status statusText _ =>
      if responseOk status then
        { result := .ok (), requests := [req], logs := [] }
      else
        let e := JsError.jsError ("Failed to update conversation: " ++ statusText)
        { result := .error e, requests := [req], logs := [e] }

end ConversationService

/-- interface Conversation of types/conversation.ts (the open metadata map
is not used by any hook and is omitted). -/
structure Conversation where
  id : String
  userId : String
  title : String
  createdAt : String
  updatedAt : String
  lastMessage : Option String
  messageCount : Option Nat
deriving DecidableEq, Repr

/-- The isEnabled flag of useCopilotConversation: double negation of the
possibly-absent conversationConfig of the context. -/
def isEnabled (conversationConfig : Option ConversationConfig) : Bool :=
  conversationConfig.isSome

/-- A call the hook wrappers make into the conversationMethods of the
context (whose implementations live in the provider, outside these
sources). -/
inductive ConvCall where
  | createConversation (title : Option String)
  | refreshConversations
  | deleteConversation (conversationId : String)
  | setCurrentConversation (conversationId : Option String)
  | loadConversation (conversationId : String)
deriving DecidableEq, Repr

/-- createNewConversation of useCopilotConversationActions: return the
empty string without any call when disabled, otherwise call the context
createConversation then refreshConversations and return the created id
(the value the context method resolved with is passed in as
contextCreateResult). -/
def createNewConversation (enabled : Bool) (contextCreateResult : String)
    (title : Option String) : String × List ConvCall :=
  if !enabled then ("", [])
  else (contextCreateResult,
    [ConvCall.createConversation title, ConvCall.refreshConversations])

/-- removeConversation of useCopilotConversationActions: return without any
call when disabled, otherwise call the context deleteConversation. -/
def removeConversation (enabled : Bool) (conversationId : String) :
    Unit × List ConvCall :=
  if !enabled then ((), [])
  else ((), [ConvCall.deleteConversation conversationId])

/-- refresh of useCopilotConversationHistory: return without any call when
disabled, otherwise call the context refreshConversations. -/
def refresh (enabled : Bool) : Unit × List ConvCall :=
  if !enabled then ((), [])
  else ((), [ConvCall.refreshConversations])

/-- switchToConversation of useCopilotCurrentConversation: return without
any call when disabled, otherwise set the current conversation and load
it. -/
def switchToConversation (enabled : Bool) (conversationId : String) :
    Unit × List ConvCall :=
  if !enabled then ((), [])
  else ((), [ConvCall.setCurrentConversation (some conversationId),
             ConvCall.loadConversation conversationId])

/-- searchConversations of useCopilotConversationSearch: return the whole
list when disabled or when the trimmed query is empty; otherwise keep the
conversations whose lower-cased title, or whose lower-cased lastMessage
when present, contains the lower-cased query. -/
def searchConversations (enabled : Bool) (conversations : List Conversation)
    (query : String) : List Conversation :=
  if !enabled || jsTrim query == "" then conversations
  else
    let lowerQuery := toLowerCase query
    conversations.filter fun conversation =>
      includes (toLowerCase conversation.title) lowerQuery
        || (match conversation.lastMessage with
            | some lm => includes (toLowerCase lm) lowerQuery
            | none => false)

/-- filterConversations of useCopilotConversationSearch. -/
def filterConversations (enabled : Bool) (conversations : List Conversation)
    (p : Conversation → Bool) : List Conversation :=
  if !enabled then []
  else conversations.filter p

/-- The sortBy argument of sortConversations. -/
inductive SortKey where
  | title
  | createdAt
  | updatedAt
  | messageCount
deriving DecidableEq, Repr

/-- The order argument of sortConversations. -/
inductive SortOrder where
  | asc
  | desc
deriving DecidableEq, Repr

/-- The untyped aValue and bValue the sortConversations comparator computes:
a lower-cased title string or a number. -/
inductive SortValue where
  | strVal (s : String)
  | numVal (n : Int)
deriving DecidableEq, Repr

/-- JavaScript code-unit lexicographic order on strings, as character
lists. -/
def charsLt : List Char → List Char → Bool
  | [], [] => false
  | [], _ :: _ => true
  | _ :: _, [] => false
  | a :: as, b :: bs => if a < b then true else if b < a then false else charsLt as bs

/-- The JavaScript less-than on the comparator values: string comparison
for titles, numeric comparison otherwise (mixed operands never occur). -/
def svLt : SortValue → SortValue → Bool
  | .strVal a, .strVal b => charsLt a.data b.data
  | .numVal a, .numVal b => a < b
  | _, _ => false

/-- The value sortConversations extracts for one conversation: the switch
on sortBy of the source. new Date on a timestamp string followed by getTime
is modelled by the environment function getTime; a missing messageCount
falls back to zero through the or-else. -/
def sortValue (getTime : String → Int) (sortBy : SortKey) (c : Conversation) :
    SortValue :=
  match sortBy with
  | .title => SortValue.strVal (toLowerCase c.title)
  | .createdAt => SortValue.numVal (getTime c.createdAt)
  | .updatedAt => SortValue.numVal (getTime c.updatedAt)
  | .messageCount => SortValue.numVal (Int.ofNat (c.messageCount.getD 0))

/-- The comparator passed to Array.prototype.sort by sortConversations. -/
def convCompare (getTime : String → Int) (sortBy : SortKey) (order : SortOrder)
    (a b : Conversation) : Int :=
  let aValue := sortValue getTime sortBy a
  let bValue := sortValue getTime sortBy b
  match order with
  | .asc => if svLt aValue bValue then -1 else if svLt bValue aValue then 1 else 0
  | .desc => if svLt bValue aValue then -1 else if svLt aValue bValue then 1 else 0

/-- Insert one element into a list sorted by the comparator-derived order:
the element goes before the first position where the comparator keeps the
pair in order. -/
def jsInsert (le : α → α → Bool) (x : α) : List α → List α
  | [] => [x]
  | y :: ys => if le x y then x :: y :: ys else y :: jsInsert le x ys

/-- Comparison sort of a list, modelling Array.prototype.sort applied to
the spread copy the source makes: the result is a reordering of the input
consistent with the comparator, and the input value is untouched. -/
def jsSort (le : α → α → Bool) : List α → List α
  | [] => []
  | x :: xs => jsInsert le x (jsSort le xs)

/-- sortConversations of useCopilotConversationSearch: the empty list when
disabled, otherwise a sorted copy of the argument list built from a spread
copy, ordered by the comparator. -/
def sortConversations (enabled : Bool) (getTime : String → Int)
    (conversations : List Conversation) (sortBy : SortKey) (order : SortOrder) :
    List Conversation :=
  if !enabled then []
  else jsSort (fun a b => convCompare getTime sortBy order a b ≤ 0) conversations

/-- A concrete configuration used to instantiate universally quantified
results on explicit inputs. -/
def exampleConfig : ConversationConfig :=
  { apiBaseUrl := "https://api.example.com"
    userId := "u1"
    headers := none
    autoSave := none
    endpoints := none }

/-- The service built from the concrete example configuration. -/
def exampleService : ServiceConfig := mkService exampleConfig

/-- A concrete conversation titled Trip Planning. -/
def tripConversation : Conversation :=
  { id := "c1", userId := "u1", title := "Trip Planning"
    createdAt := "2024-01-01", updatedAt := "2024-01-02"
    lastMessage := none, messageCount := none }

/-- A concrete conversation titled Budget Review. -/
def budgetConversation : Conversation :=
  { id := "c2", userId := "u1", title := "Budget Review"
    createdAt := "2024-01-03", updatedAt := "2024-01-04"
    lastMessage := none, messageCount := none }

/-- A conversation whose lastMessage preview mentions a trip while its
title does not. -/
def planningConversation : Conversation :=
  { id := "c3", userId := "u1", title := "Budget Review"
    createdAt := "2024-01-03", updatedAt := "2024-01-04"
    lastMessage := some "We planned the trip", messageCount := none }

/-- The example configuration with autoSave explicitly off. -/
def autoSaveOffConfig : ConversationConfig :=
  { exampleConfig with autoSave := some false }

/-- The example configuration with autoSave explicitly on. -/
def autoSaveOnConfig : ConversationConfig :=
  { exampleConfig with autoSave := some true }

/-- Encoding a host role to the wire string and mapping it back is the
identity on the three host roles. -/
theorem role_roundtrip (r : MessageRole) :
    mapApiRoleToCopilotRole (mapCopilotRoleToApiRole r) = r := by
  cases r <;> rfl

/-- Decoding the stored form of an encoded host message always yields a
text message carrying the stored id, the original host role and the
extracted content. -/
theorem decode_store_encode (m : Message) (cid uid sid t u : String) :
    convertApiMessagesToCopilotMessages
        [storeWire (convertCopilotMessageToApiMessage uid m cid) sid t u]
      = [Message.text sid (getMessageRole m) (extractMessageContent m) t] := by
  simp [convertApiMessagesToCopilotMessages, storeWire,
    convertCopilotMessageToApiMessage, role_roundtrip]

/-- Inserting with jsInsert permutes consing. -/
theorem jsInsert_perm (le : α → α → Bool) (x : α) :
    ∀ l : List α, (jsInsert le x l).Perm (x :: l)
  | [] => List.Perm.refl _
  | y :: ys => by
      simp only [jsInsert]
      split
      · exact List.Perm.refl _
      · exact ((jsInsert_perm le x ys).cons y).trans (List.Perm.swap x y ys)

/-- jsSort returns a permutation of its input. -/
theorem jsSort_perm (le : α → α → Bool) : ∀ l : List α, (jsSort le l).Perm l
  | [] => List.Perm.refl _
  | x :: xs => (jsInsert_perm le x (jsSort le xs)).trans ((jsSort_perm le xs).cons x)

/-- C1 (corrected): the encoder omits the top-level message id, keeping the
original id only inside messageMetadata.messageId, and the decoder reads
the stored top-level id; so when the backend stores the encoded text
message m1 under the backend-assigned id srv-9, decoding yields a message
whose id is srv-9, not the original m1 — the round trip does not preserve
the id as claimed. -/
theorem codec_roundtrip_id_counterexample :
    convertApiMessagesToCopilotMessages
        [storeWire (convertCopilotMessageToApiMessage "u1"
            (Message.text "m1" MessageRole.user "hello" "t0") "c1") "srv-9" "t1" "t1"]
      = [Message.text "srv-9" MessageRole.user "hello" "t1"]
    ∧ Message.id (Message.text "srv-9" MessageRole.user "hello" "t1")
        ≠ Message.id (Message.text "m1" MessageRole.user "hello" "t0") :=
  ⟨by decide, by decide⟩

/-- C1 (amended): for every supported host-message kind, encoding with
convertCopilotMessageToApiMessage, storing (the backend assigns the stored
id and timestamps) and decoding with convertApiMessagesToCopilotMessages
yields a text message with the same role as the original host role and with
the extracted content (exactly the original content for text messages); the
original id survives only in messageMetadata.messageId, and the decoded id
equals the original id exactly when the backend-assigned stored id does. -/
theorem codec_roundtrip_amended (m : Message) (cid uid sid t u : String) :
    convertApiMessagesToCopilotMessages
        [storeWire (convertCopilotMessageToApiMessage uid m cid) sid t u]
      = [Message.text sid (getMessageRole m) (extractMessageContent m) t]
    ∧ (storeWire (convertCopilotMessageToApiMessage uid m cid) sid t u).messageMetadata
        = some { type := getMessageType m, messageId := m.id, originalMessage := m }
    ∧ (sid = m.id →
        convertApiMessagesToCopilotMessages
            [storeWire (convertCopilotMessageToApiMessage uid m cid) sid t u]
          = [Message.text m.id (getMessageRole m) (extractMessageContent m) t])
    ∧ (∀ i r c ca, m = Message.text i r c ca → extractMessageContent m = c) := by
  refine ⟨decode_store_encode m cid uid sid t u, rfl, ?_, ?_⟩
  · intro h
    rw [← h]
    exact decode_store_encode m cid uid sid t u
  · intro i r c ca h
    subst h
    rfl

theorem codec_roundtrip_amended_witness :
    convertApiMessagesToCopilotMessages
        [storeWire (convertCopilotMessageToApiMessage "u1"
            (Message.text "m1" MessageRole.user "hello" "t0") "c1") "m1" "t1" "t1"]
      = [Message.text "m1" MessageRole.user "hello" "t1"]
    ∧ extractMessageContent (Message.text "m1" MessageRole.user "hello" "t0") = "hello" :=
  ⟨(codec_roundtrip_amended (Message.text "m1" MessageRole.user "hello" "t0")
      "c1" "u1" "m1" "t1" "t1").2.2.1 rfl,
   (codec_roundtrip_amended (Message.text "m1" MessageRole.user "hello" "t0")
      "c1" "u1" "m1" "t1" "t1").2.2.2 "m1" MessageRole.user "hello" "t0" rfl⟩

/-- C2: for every configuration, message, conversation id and fetch
outcome, ConversationService.saveMessage resolves normally — on a transport
failure or a non-2xx response the error is only logged, never thrown to the
caller. -/
theorem saveMessage_never_throws :
    (∀ (cfg : ServiceConfig) (m : Message) (cid : String) (outcome : FetchOutcome Json),
      (ConversationService.saveMessage cfg m cid outcome).result = Except.ok ())
    ∧ (∀ (cfg : ServiceConfig) (m : Message) (cid : String) (status : Nat)
        (statusText : String) (body : Json),
        cfg.autoSave = true → responseOk status = false →
        (ConversationService.saveMessage cfg m cid
            (.success status statusText body)).logs
          = [JsError.jsError ("Failed to save message: " ++ statusText)]) := by
  constructor
  · intro cfg m cid outcome
    cases hb : cfg.autoSave
    · simp [ConversationService.saveMessage, hb]
    · cases outcome with
      | networkError msg => simp [ConversationService.saveMessage, hb]
      | success status statusText body =>
          cases hr : responseOk status <;>
            simp [ConversationService.saveMessage, hb, hr]
  · intro cfg m cid status statusText body h1 h2
    simp [ConversationService.saveMessage, h1, h2]

theorem saveMessage_never_throws_witness :
    (ConversationService.saveMessage exampleService
        (Message.text "m1" MessageRole.user "hello" "t0") "c1"
        (.success 500 "Server Error" Json.null)).result = Except.ok ()
    ∧ (ConversationService.saveMessage exampleService
        (Message.text "m1" MessageRole.user "hello" "t0") "c1"
        (.success 500 "Server Error" Json.null)).logs
      = [JsError.jsError "Failed to save message: Server Error"] :=
  ⟨saveMessage_never_throws.1 exampleService
      (Message.text "m1" MessageRole.user "hello" "t0") "c1"
      (.success 500 "Server Error" Json.null),
   saveMessage_never_throws.2 exampleService
      (Message.text "m1" MessageRole.user "hello" "t0") "c1"
      500 "Server Error" Json.null rfl rfl⟩

/-- C3: with no conversation configuration, isEnabled is false and every
hook operation is an inert no-op making zero context calls (hence zero
network calls): createNewConversation returns the empty string,
removeConversation and refresh return without calling the service, and
switchToConversation never touches the current conversation. -/
theorem noConfig_noop :
    isEnabled none = false
    ∧ (∀ (r : String) (t : Option String),
        createNewConversation (isEnabled none) r t = ("", []))
    ∧ (∀ cid : String, removeConversation (isEnabled none) cid = ((), []))
    ∧ refresh (isEnabled none) = ((), [])
    ∧ (∀ cid : String, switchToConversation (isEnabled none) cid = ((), [])) :=
  ⟨rfl, fun _ _ => rfl, fun _ => rfl, rfl, fun _ => rfl⟩

/-- C4 (corrected): a non-2xx response makes each of the five operations
reject, but with a plain JavaScript Error whose message is an
operation-specific prefix followed by the HTTP statusText; no typed error
carrying the numeric status code exists in the code. -/
theorem nonOk_rejects_with_statusText (cfg : ServiceConfig) (status : Nat)
    (statusText : String) (h : responseOk status = false) :
    (∀ body, (ConversationService.getConversations cfg
        (.success status statusText body)).result
      = Except.error (JsError.jsError ("Failed to fetch conversations: " ++ statusText)))
    ∧ (∀ cid msgs, (ConversationService.getConversationMessages cfg cid
        (.success status statusText msgs)).result
      = Except.error (JsError.jsError ("Failed to fetch conversation messages: " ++ statusText)))
    ∧ (∀ title now body, (ConversationService.createConversation cfg title now
        (.success status statusText body)).result
      = Except.error (JsError.jsError ("Failed to create conversation: " ++ statusText)))
    ∧ (∀ cid body, (ConversationService.deleteConversation cfg cid
        (.success status statusText body)).result
      = Except.error (JsError.jsError ("Failed to delete conversation: " ++ statusText)))
    ∧ (∀ cid upd body, (ConversationService.updateConversation cfg cid upd
        (.success status statusText body)).result
      = Except.error (JsError.jsError ("Failed to update conversation: " ++ statusText))) := by
  refine ⟨fun body => ?_, fun cid msgs => ?_, fun title now body => ?_,
    fun cid body => ?_, fun cid upd body => ?_⟩ <;>
    simp [ConversationService.getConversations,
      ConversationService.getConversationMessages,
      ConversationService.createConversation,
      ConversationService.deleteConversation,
      ConversationService.updateConversation, h]

theorem nonOk_rejects_with_statusText_witness :
    (ConversationService.deleteConversation exampleService "c1"
        (.success 404 "Not Found" Json.null)).result
      = Except.error (JsError.jsError "Failed to delete conversation: Not Found") :=
  (nonOk_rejects_with_statusText exampleService 404 "Not Found" rfl).2.2.2.1 "c1" Json.null

/-- C4 (counterexample to the claim as stated): two responses that differ
only in the numeric status code, 404 versus 500, with the same statusText
produce byte-identical failures, so the error cannot carry the HTTP status
code. -/
theorem apiError_status_counterexample :
    ConversationService.getConversations exampleService (.success 404 "Oops" Json.null)
      = ConversationService.getConversations exampleService (.success 500 "Oops" Json.null)
    ∧ (ConversationService.getConversations exampleService
        (.success 404 "Oops" Json.null)).result
      = Except.error (JsError.jsError "Failed to fetch conversations: Oops") :=
  ⟨rfl, rfl⟩

/-- C5: with autoSave configured false, saveMessage issues no request and
resolves immediately whatever the environment would answer; with autoSave
configured true, every call issues exactly one POST to the messages path of
the given conversation id. -/
theorem autoSave_gating :
    (∀ (config : ConversationConfig) (m : Message) (cid : String)
        (outcome : FetchOutcome Json),
      config.autoSave = some false →
      ConversationService.saveMessage (mkService config) m cid outcome
        = { result := Except.ok (), requests := [], logs := [] })
    ∧ (∀ (config : ConversationConfig) (m : Message) (cid : String)
        (outcome : FetchOutcome Json),
      config.autoSave = some true →
      (ConversationService.saveMessage (mkService config) m cid outcome).requests
        = [ConversationService.saveMessageRequest (mkService config) m cid])
    ∧ (∀ (cfg : ServiceConfig) (m : Message) (cid : String),
      (ConversationService.saveMessageRequest cfg m cid).method = "POST"
      ∧ (ConversationService.saveMessageRequest cfg m cid).url
          = cfg.apiBaseUrl ++ jsTemplate cfg.endpoints.conversations
              ++ "/" ++ cid ++ "/messages") := by
  refine ⟨?_, ?_, fun cfg m cid => ⟨rfl, rfl⟩⟩
  · intro config m cid outcome h
    simp [ConversationService.saveMessage, mkService, h]
  · intro config m cid outcome h
    cases outcome with
    | networkError msg => simp [ConversationService.saveMessage, mkService, h]
    | success status statusText body =>
        cases hr : responseOk status <;>
          simp [ConversationService.saveMessage, mkService, h, hr]

theorem autoSave_gating_witness :
    ConversationService.saveMessage (mkService autoSaveOffConfig)
        (Message.text "m1" MessageRole.user "hi" "t") "c1" (.success 200 "OK" Json.null)
      = { result := Except.ok (), requests := [], logs := [] }
    ∧ (ConversationService.saveMessage (mkService autoSaveOnConfig)
        (Message.text "m1" MessageRole.user "hi" "t") "c1"
        (.success 200 "OK" Json.null)).requests
      = [ConversationService.saveMessageRequest (mkService autoSaveOnConfig)
          (Message.text "m1" MessageRole.user "hi" "t") "c1"] :=
  ⟨autoSave_gating.1 autoSaveOffConfig (Message.text "m1" MessageRole.user "hi" "t")
      "c1" (.success 200 "OK" Json.null) rfl,
   autoSave_gating.2.1 autoSaveOnConfig (Message.text "m1" MessageRole.user "hi" "t")
      "c1" (.success 200 "OK" Json.null) rfl⟩

/-- C6: the wire-role mapping is total and default-safe — user, assistant
and system match case-insensitively to their host roles and every other
string maps to the user role. -/
theorem roleMapping_total_default :
    (∀ s : String, toLowerCase s = "user" →
      mapApiRoleToCopilotRole s = MessageRole.user)
    ∧ (∀ s : String, toLowerCase s = "assistant" →
      mapApiRoleToCopilotRole s = MessageRole.assistant)
    ∧ (∀ s : String, toLowerCase s = "system" →
      mapApiRoleToCopilotRole s = MessageRole.system)
    ∧ (∀ s : String, toLowerCase s ≠ "user" → toLowerCase s ≠ "assistant" →
        toLowerCase s ≠ "system" → mapApiRoleToCopilotRole s = MessageRole.user) := by
  refine ⟨fun s h => ?_, fun s h => ?_, fun s h => ?_, fun s h1 h2 h3 => ?_⟩
  · unfold mapApiRoleToCopilotRole
    rw [h]
    decide
  · unfold mapApiRoleToCopilotRole
    rw [h]
    decide
  · unfold mapApiRoleToCopilotRole
    rw [h]
    decide
  · unfold mapApiRoleToCopilotRole
    rw [if_neg h1, if_neg h2, if_neg h3]

theorem roleMapping_total_default_witness :
    mapApiRoleToCopilotRole "ASSISTANT" = MessageRole.assistant
    ∧ mapApiRoleToCopilotRole "robot" = MessageRole.user :=
  ⟨roleMapping_total_default.2.1 "ASSISTANT" (by decide),
   roleMapping_total_default.2.2.2 "robot" (by decide) (by decide) (by decide)⟩

/-- C7: getConversations never throws on an empty result — every 2xx
response with an array body yields the parsed list, and a 2xx response
whose body is not an array yields the empty list. -/
theorem getConversations_empty_safe (cfg : ServiceConfig) (status : Nat)
    (statusText : String) (h : responseOk status = true) :
    (∀ xs : List Json,
      (ConversationService.getConversations cfg
          (.success status statusText (Json.arr xs))).result = Except.ok xs)
    ∧ (∀ body : Json, body.isArr = false →
      (ConversationService.getConversations cfg
          (.success status statusText body)).result = Except.ok []) := by
  constructor
  · intro xs
    simp [ConversationService.getConversations, h]
  · intro body hb
    cases body <;> simp_all [ConversationService.getConversations, Json.isArr, h]

theorem getConversations_empty_safe_witness :
    (ConversationService.getConversations exampleService
        (.success 200 "OK" (Json.arr []))).result = Except.ok []
    ∧ (ConversationService.getConversations exampleService
        (.success 200 "OK" Json.null)).result = Except.ok [] :=
  ⟨(getConversations_empty_safe exampleService 200 "OK" rfl).1 [],
   (getConversations_empty_safe exampleService 200 "OK" rfl).2 Json.null rfl⟩

/-- C8: searching trip over the conversations titled Trip Planning and
Budget Review, neither of which has a matching lastMessage, returns only
the Trip Planning conversation — matching is case-insensitive. -/
theorem search_trip_example :
    searchConversations true [tripConversation, budgetConversation] "trip"
      = [tripConversation] := by decide

/-- C9: a query that trims to the empty string returns the whole
conversation list unchanged for either enabled state, and a conversation
whose lastMessage preview matches the lower-cased query is in the search
result even when its title does not match. -/
theorem search_whitespace_and_lastMessage :
    (∀ (enabled : Bool) (cs : List Conversation) (q : String), jsTrim q = "" →
      searchConversations enabled cs q = cs)
    ∧ (∀ (cs : List Conversation) (q : String) (c : Conversation),
        c ∈ cs →
        (match c.lastMessage with
         | some lm => includes (toLowerCase lm) (toLowerCase q)
         | none => false) = true →
        c ∈ searchConversations true cs q) := by
  constructor
  · intro enabled cs q h
    simp [searchConversations, h]
  · intro cs q c hc hlm
    unfold searchConversations
    split
    · exact hc
    · apply List.mem_filter.mpr
      refine ⟨hc, ?_⟩
      rw [Bool.or_eq_true]
      right
      exact hlm

theorem search_whitespace_and_lastMessage_witness :
    searchConversations true [tripConversation] "   " = [tripConversation]
    ∧ planningConversation ∈ searchConversations true [planningConversation] "TRIP" :=
  ⟨search_whitespace_and_lastMessage.1 true [tripConversation] "   " (by decide),
   search_whitespace_and_lastMessage.2 [planningConversation] "TRIP"
      planningConversation (by decide) (by decide)⟩

/-- C10: sortConversations returns the empty list when the feature is
disabled, and otherwise returns a fresh sorted copy that is a permutation
of the input list; the input itself, being a value the function only reads
through a spread copy, is never mutated. -/
theorem sortConversations_perm_pure :
    (∀ (getTime : String → Int) (cs : List Conversation) (sortBy : SortKey)
        (order : SortOrder),
      sortConversations false getTime cs sortBy order = [])
    ∧ (∀ (getTime : String → Int) (cs : List Conversation) (sortBy : SortKey)
        (order : SortOrder),
      (sortConversations true getTime cs sortBy order).Perm cs) := by
  constructor
  · intro _ _ _ _
    rfl
  · intro getTime cs sortBy order
    exact jsSort_perm (fun a b => convCompare getTime sortBy order a b ≤ 0) cs
